import Mathlib

/-!
Shallow embedding of `src/nemo-crtime.py` (the nemo-crtime extension).

The source is Python 2 (it uses `basestring`, and `/` on ints is floor
division).  The extraction core consists of four functions:

* `get_file_system`  — runs `df -T path`, takes the last line of the output
  and returns its second whitespace-separated field;
* `get_vfat_crtime`  — returns `os.stat(path).st_ctime` unchanged;
* `get_ntfs_crtime`  — runs `getfattr --only-values -n system.ntfs_crtime_be
  path`, unpacks the output as a big-endian 8-byte unsigned integer and
  converts NTFS ticks to Unix seconds;
* `get_crtime`       — dispatches on the file-system string.

System interaction is modelled by a `SystemState` of oracles: the outcome of
the `df` subprocess, of the `getfattr` subprocess, and of `os.stat` for each
path.  Python exceptions are modelled by `Except PyError`; an uncaught
exception in a callee propagates because `Except.error` is matched through
unchanged.  `st_ctime` (a Python float in the source) is modelled as an
integer instant; none of the verified properties depends on sub-second
precision.  `splitlines` is modelled for LF-terminated output, the form `df`
produces.
-/

/-- Command line built by `get_file_system`: `['df', '-T', path]`. -/
def dfCmd (path : String) : List String := ["df", "-T", path]

/-- Command line built by `get_ntfs_crtime`:
`['getfattr', '--only-values', '-n', 'system.ntfs_crtime_be', path]`. -/
def getfattrCmd (path : String) : List String :=
  ["getfattr", "--only-values", "-n", "system.ntfs_crtime_be", path]

/-- Python exceptions that the embedded code can raise.
`calledProcessError` is `subprocess.CalledProcessError` (it carries the
command and the nonzero return code), `oSError` is the `OSError` raised by a
failing `os.stat`, `structError` is `struct.error` from `struct.unpack` on a
buffer whose length is not 8, `indexError` arises from `[-1]` / `[1]` on a
too-short list, `assertionError` from a failing `assert`, and `typeError`
from passing a non-string where a string is required. -/
inductive PyError where
  | calledProcessError (cmd : List String) (returncode : Int)
  | oSError
  | structError
  | indexError
  | assertionError (msg : String)
  | typeError
  deriving Repr, DecidableEq

/-- A Python argument value: either a string or any non-string object
(the code only distinguishes these two cases, via
`isinstance(path, basestring)`). -/
inductive PyArg where
  | str (s : String)
  | nonStr
  deriving Repr, DecidableEq

/-- State of the host system as observed by the program:
* `dfResult p`      — outcome of `subprocess.check_output(['df','-T',p])`:
  the stdout text, or the nonzero exit code on failure;
* `getfattrResult p`— outcome of the `getfattr` subprocess: the raw stdout
  bytes, or the nonzero exit code on failure;
* `statResult p`    — `os.stat(p).st_ctime`, or `none` when `os.stat`
  raises `OSError`;
* `env`             — ambient system state (clock, locale, unrelated
  processes) that the extraction core does not read. -/
structure SystemState where
  dfResult : String → Except Int String
  getfattrResult : String → Except Int (List (Fin 256))
  statResult : String → Option Int
  env : Nat

/-- Whitespace characters recognised by Python's `str.split()` with no
argument: space, tab, linefeed, carriage return, vertical tab, form feed. -/
def isPyWs (c : Char) : Bool :=
  c == ' ' || c == '\t' || c == '\n' || c == '\r' ||
  c == Char.ofNat 11 || c == Char.ofNat 12

/-- Splits a character list at every character satisfying `p`, keeping the
(possibly empty) pieces; `acc` holds the current piece reversed. -/
def splitCharsAux (p : Char → Bool) : List Char → List Char → List (List Char)
  | [], acc => [acc.reverse]
  | c :: cs, acc =>
    if p c then acc.reverse :: splitCharsAux p cs []
    else splitCharsAux p cs (c :: acc)

/-- Python `s.split()` (no argument): split on whitespace runs and drop the
empty pieces. -/
def pySplitWs (s : String) : List String :=
  ((splitCharsAux isPyWs s.data []).map String.mk).filter (fun t => !t.isEmpty)

/-- Python `s.splitlines()` for LF-terminated text: split on `'\n'`; a
trailing newline does not produce a final empty line; the empty string has
no lines. -/
def pySplitlines (s : String) : List String :=
  if s.data.isEmpty then []
  else
    let parts := (splitCharsAux (fun c => c == '\n') s.data []).map String.mk
    if s.data.getLast? = some '\n' then parts.dropLast else parts

/-- Embedding of `get_file_system` (src lines 19-26):
`assert isinstance(path, basestring)`; run `df -T path`; take the last line
of the decoded output and return its second whitespace-separated field.
A failing subprocess raises `CalledProcessError`; indexing an empty line
list or a line with fewer than two fields raises `IndexError`. -/
def get_file_system (st : SystemState) (path : PyArg) : Except PyError String :=
  match path with
  | .nonStr => .error (.assertionError "Bad object type given for path")
  | .str p =>
    match st.dfResult p with
    | .error rc => .error (.calledProcessError (dfCmd p) rc)
    | .ok out =>
      match (pySplitlines out).getLast? with
      | none => .error .indexError
      | some line =>
        match (pySplitWs line)[1]? with
        | none => .error .indexError
        | some fs => .ok fs

/-- Embedding of `get_vfat_crtime` (src lines 28-35): return
`os.stat(path).st_ctime` unchanged; a failing `os.stat` raises `OSError`.
`os.stat` on a non-string raises `TypeError` (unreachable from
`get_crtime`, which asserts the path is a string first). -/
def get_vfat_crtime (st : SystemState) (path : PyArg) : Except PyError Int :=
  match path with
  | .nonStr => .error .typeError
  | .str p =>
    match st.statResult p with
    | none => .error .oSError
    | some ct => .ok ct

/-- Big-endian value of a byte list (the `>Q` interpretation). -/
def beBytesVal (bs : List (Fin 256)) : Nat :=
  bs.foldl (fun acc b => acc * 256 + b.val) 0

/-- Embedding of `struct.unpack('>Q', bs)[0]`: requires exactly 8 bytes
(otherwise `struct.error`), and reads them as a big-endian unsigned
64-bit integer. -/
def unpackBEQ (bs : List (Fin 256)) : Option Nat :=
  if bs.length = 8 then some (beBytesVal bs) else none

/-- Embedding of the conversion on src line 45 under Python 2 integer
division: `n / 10000000 - 11644473600`.  `n` is unsigned (it comes from
`>Q`), so Python's floor division coincides with truncating division and
with `Nat` division. -/
def ntfsDecode (n : Nat) : Int :=
  Int.ofNat (n / 10000000) - 11644473600

/-- Embedding of `get_ntfs_crtime` (src lines 37-46): run
`getfattr --only-values -n system.ntfs_crtime_be path` (raising
`CalledProcessError` on failure), unpack the stdout as `>Q` and convert the
tick count to Unix seconds. -/
def get_ntfs_crtime (st : SystemState) (path : PyArg) : Except PyError Int :=
  match path with
  | .nonStr => .error .typeError
  | .str p =>
    match st.getfattrResult p with
    | .error rc => .error (.calledProcessError (getfattrCmd p) rc)
    | .ok bs =>
      match unpackBEQ bs with
      | none => .error .structError
      | some n => .ok (ntfsDecode n)

/-- Embedding of `get_crtime` (src lines 48-59): classify the file system,
then dispatch — `'fuseblk'` to the NTFS strategy, `'vfat'` to the VFAT
strategy, anything else returns `None` (modelled `none`).  No exception is
caught: every `Except.error` from a callee is returned unchanged. -/
def get_crtime (st : SystemState) (path : PyArg) : Except PyError (Option Int) :=
  match get_file_system st path with
  | .error e => .error e
  | .ok fs =>
    if fs = "fuseblk" then
      match get_ntfs_crtime st path with
      | .error e => .error e
      | .ok t => .ok (some t)
    else if fs = "vfat" then
      match get_vfat_crtime st path with
      | .error e => .error e
      | .ok t => .ok (some t)
    else .ok none

/-- Outcome of the interactive `__main__` caller: it prints the instant, or
raises `RuntimeError("Unsupported filesystem")`, or lets an exception from
`get_crtime` propagate uncaught. -/
inductive MainOutcome where
  | printed (t : Int)
  | runtimeErr (msg : String)
  | uncaught (e : PyError)
  deriving Repr, DecidableEq

/-- Embedding of src lines 120-123: `crtime = get_crtime(path)`;
`if not crtime: raise RuntimeError(...)`; else print.  Python truthiness:
`not crtime` is true exactly when `crtime` is `None` or zero. -/
def mainAction (st : SystemState) (p : String) : MainOutcome :=
  match get_crtime st (.str p) with
  | .error e => .uncaught e
  | .ok none => .runtimeErr "Unsupported filesystem"
  | .ok (some t) =>
    if t = 0 then .runtimeErr "Unsupported filesystem" else .printed t

/-! Concrete witness states. -/

/-- Bytes of `116444736000000000` (`0x019DB1DED53E8000`), the NTFS tick
count of the Unix epoch, big-endian. -/
def epochBytes : List (Fin 256) := [1, 157, 177, 222, 213, 62, 128, 0]

/-- A state where every path is on an NTFS (`fuseblk`) mount and the
creation-time attribute holds the epoch tick count. -/
def wStNtfs : SystemState where
  dfResult := fun _ => .ok "Filesystem Type\n/dev/sdb1 fuseblk 1 1 1 1% /mnt\n"
  getfattrResult := fun _ => .ok epochBytes
  statResult := fun _ => some 7
  env := 0

/-- A state where every path is on an `ext4` mount. -/
def wStExt4 : SystemState where
  dfResult := fun _ => .ok "Filesystem Type\n/dev/sda1 ext4 1 1 1 1% /\n"
  getfattrResult := fun _ => .ok epochBytes
  statResult := fun _ => some 7
  env := 0

/-- `wStExt4` with a different ambient state and different attribute and
metadata oracles, but the same mount table. -/
def wStExt4b : SystemState where
  dfResult := wStExt4.dfResult
  getfattrResult := fun _ => .error 1
  statResult := fun _ => none
  env := 1

/-- `wStExt4` with only the ambient state changed. -/
def wStExt4env : SystemState := { wStExt4 with env := 5 }

/-- A state where every path is on a `vfat` mount with `st_ctime = 123`. -/
def wStVfat : SystemState where
  dfResult := fun _ => .ok "Filesystem Type\n/dev/sdc1 vfat 1 1 1 1% /mnt\n"
  getfattrResult := fun _ => .error 1
  statResult := fun _ => some 123
  env := 0

/-- A `vfat` state whose `st_ctime` is exactly the Unix epoch. -/
def wStVfat0 : SystemState := { wStVfat with statResult := fun _ => some 0 }

/-- A state where the `df` query fails with exit code 1. -/
def wStDfFail : SystemState where
  dfResult := fun _ => .error 1
  getfattrResult := fun _ => .error 1
  statResult := fun _ => none
  env := 0

/-- An NTFS state whose creation-time attribute is unreadable
(`getfattr` exits 1). -/
def wStAttrFail : SystemState := { wStNtfs with getfattrResult := fun _ => .error 1 }

/-! Helper lemmas. -/

/-- Classification reads only the `df` oracle. -/
theorem get_file_system_df_only (st st' : SystemState) (path : PyArg)
    (hdf : st'.dfResult = st.dfResult) :
    get_file_system st' path = get_file_system st path := by
  cases path <;> simp [get_file_system, hdf]

/-- The NTFS strategy reads only the `getfattr` oracle. -/
theorem get_ntfs_xattr_only (st st' : SystemState) (path : PyArg)
    (hx : st'.getfattrResult = st.getfattrResult) :
    get_ntfs_crtime st' path = get_ntfs_crtime st path := by
  cases path <;> simp [get_ntfs_crtime, hx]

/-- The VFAT strategy reads only the `stat` oracle. -/
theorem get_vfat_stat_only (st st' : SystemState) (path : PyArg)
    (hs : st'.statResult = st.statResult) :
    get_vfat_crtime st' path = get_vfat_crtime st path := by
  cases path <;> simp [get_vfat_crtime, hs]

/-- Every token produced by `pySplitWs` is nonempty. -/
theorem pySplitWs_ne_empty (s t : String) (ht : t ∈ pySplitWs s) : t ≠ "" := by
  have hp := List.of_mem_filter ht
  intro he
  subst he
  exact absurd hp (by decide)

/-- The decode expression of src line 45 equals truncating division of the
tick count followed by the epoch shift. -/
theorem ntfsDecode_eq_tdiv (n : Nat) :
    ntfsDecode n = Int.tdiv (Int.ofNat n) 10000000 - 11644473600 := rfl

/-! Claim theorems. -/

/-- C1: for every 8-byte big-endian raw NTFS tick count `N` read from the
extended attribute, `get_ntfs_crtime` returns exactly
`(N tdiv 10000000) - 11644473600`, truncating integer division toward
zero. -/
theorem ntfs_decode_spec (st : SystemState) (p : String) (bs : List (Fin 256))
    (h : st.getfattrResult p = .ok bs) (h8 : bs.length = 8) :
    get_ntfs_crtime st (.str p) =
      .ok (Int.tdiv (Int.ofNat (beBytesVal bs)) 10000000 - 11644473600) := by
  simp [get_ntfs_crtime, h, unpackBEQ, h8, ntfsDecode_eq_tdiv]

/-- C1 witness: raw ticks `116444736000000000` decode to Unix time 0. -/
theorem ntfs_decode_spec_witness :
    get_ntfs_crtime wStNtfs (.str "f") = .ok 0 := by
  have h := ntfs_decode_spec wStNtfs "f" epochBytes rfl rfl
  rw [h]
  rfl

/-- C2: for every path whose classified filesystem type is neither
`fuseblk` nor `vfat`, `get_crtime` returns the unsupported marker (`none`)
and never an error, and the result is independent of the attribute and
metadata oracles (neither extraction strategy is invoked): it holds in any
state `st2` with the same mount table. -/
theorem unsupported_fs_spec (st st2 : SystemState) (path : PyArg) (fs : String)
    (hdf : st2.dfResult = st.dfResult)
    (h : get_file_system st path = .ok fs)
    (h1 : fs ≠ "fuseblk") (h2 : fs ≠ "vfat") :
    get_crtime st2 path = .ok none := by
  have hfs : get_file_system st2 path = .ok fs :=
    (get_file_system_df_only st st2 path hdf).trans h
  simp [get_crtime, hfs, h1, h2]

/-- C2 witness: an `ext4` path yields `.ok none` even when the attribute
and metadata oracles fail. -/
theorem unsupported_fs_spec_witness : get_crtime wStExt4b (.str "f") = .ok none := by
  exact unsupported_fs_spec wStExt4 wStExt4b (.str "f") "ext4" rfl (by rfl)
    (by decide) (by decide)

/-- C3: dispatch in `get_crtime` keys on the exact classifier strings:
`'fuseblk'` selects the NTFS strategy, `'vfat'` the FAT32 strategy, and
every other type string selects the default (`none`). -/
theorem dispatch_spec (st : SystemState) (path : PyArg) (fs : String)
    (h : get_file_system st path = .ok fs) :
    (fs = "fuseblk" → get_crtime st path = (get_ntfs_crtime st path).map some) ∧
    (fs = "vfat" → get_crtime st path = (get_vfat_crtime st path).map some) ∧
    (fs ≠ "fuseblk" → fs ≠ "vfat" → get_crtime st path = .ok none) := by
  refine ⟨?_, ?_, ?_⟩
  · intro hf
    subst hf
    cases hn : get_ntfs_crtime st path <;> simp [get_crtime, h, hn, Except.map]
  · intro hf
    subst hf
    cases hv : get_vfat_crtime st path <;> simp [get_crtime, h, hv, Except.map]
  · intro h1 h2
    simp [get_crtime, h, h1, h2]

/-- C3 witness: on a `fuseblk` mount, `get_crtime` is the NTFS strategy's
result. -/
theorem dispatch_spec_witness :
    get_crtime wStNtfs (.str "f") = (get_ntfs_crtime wStNtfs (.str "f")).map some := by
  exact (dispatch_spec wStNtfs (.str "f") "fuseblk" (by rfl)).1 rfl

/-- C4: if the `df` query fails, `get_file_system` fails with the
`CalledProcessError` carrying the command and the exit code — it never
returns a type string, so it never silently defaults. -/
theorem classification_error_spec (st : SystemState) (p : String) (rc : Int)
    (h : st.dfResult p = .error rc) :
    get_file_system st (.str p) = .error (.calledProcessError (dfCmd p) rc) := by
  simp [get_file_system, h]

/-- C4 witness: a failing `df` yields the classification error. -/
theorem classification_error_spec_witness :
    get_file_system wStDfFail (.str "f") = .error (.calledProcessError (dfCmd "f") 1) := by
  exact classification_error_spec wStDfFail "f" 1 rfl

/-- C5: if the creation-time extended attribute is absent or unreadable
(`getfattr` exits nonzero), the NTFS strategy fails with the
`CalledProcessError` for the `getfattr` command — it never returns a zero,
null or fabricated instant. -/
theorem attribute_error_spec (st : SystemState) (p : String) (rc : Int)
    (h : st.getfattrResult p = .error rc) :
    get_ntfs_crtime st (.str p) = .error (.calledProcessError (getfattrCmd p) rc) := by
  simp [get_ntfs_crtime, h]

/-- C5 witness: a failing `getfattr` yields the attribute-read error. -/
theorem attribute_error_spec_witness :
    get_ntfs_crtime wStAttrFail (.str "f") = .error (.calledProcessError (getfattrCmd "f") 1) := by
  exact attribute_error_spec wStAttrFail "f" 1 rfl

/-- C6: the FAT32 strategy is a pure passthrough of `os.stat(path).st_ctime`,
and on a `vfat` mount `get_crtime` returns exactly that value. -/
theorem vfat_passthrough_spec (st : SystemState) (p : String) (ct : Int)
    (h : st.statResult p = some ct) :
    get_vfat_crtime st (.str p) = .ok ct ∧
    (get_file_system st (.str p) = .ok "vfat" → get_crtime st (.str p) = .ok (some ct)) := by
  have h1 : get_vfat_crtime st (.str p) = .ok ct := by simp [get_vfat_crtime, h]
  refine ⟨h1, fun hfs => ?_⟩
  simp [get_crtime, hfs, h1]

/-- C6 witness: `st_ctime = 123` passes through unchanged. -/
theorem vfat_passthrough_spec_witness :
    get_vfat_crtime wStVfat (.str "f") = .ok 123 ∧
    get_crtime wStVfat (.str "f") = .ok (some 123) := by
  have h := vfat_passthrough_spec wStVfat "f" 123 rfl
  exact ⟨h.1, h.2 (by rfl)⟩

/-- C7: `get_crtime` catches nothing and substitutes no fallback: a failing
classification, attribute read, or metadata read propagates to the caller
as exactly the underlying error value, and the three error values are
pairwise distinct, so the caller can tell them (and the unsupported marker)
apart. -/
theorem propagation_spec (st : SystemState) (p : String) (rc rc2 : Int) :
    (st.dfResult p = .error rc →
      get_crtime st (.str p) = .error (.calledProcessError (dfCmd p) rc)) ∧
    (get_file_system st (.str p) = .ok "fuseblk" → st.getfattrResult p = .error rc2 →
      get_crtime st (.str p) = .error (.calledProcessError (getfattrCmd p) rc2)) ∧
    (get_file_system st (.str p) = .ok "vfat" → st.statResult p = none →
      get_crtime st (.str p) = .error .oSError) ∧
    PyError.calledProcessError (dfCmd p) rc ≠ .calledProcessError (getfattrCmd p) rc2 ∧
    PyError.calledProcessError (dfCmd p) rc ≠ .oSError ∧
    PyError.calledProcessError (getfattrCmd p) rc2 ≠ .oSError := by
  refine ⟨fun h => ?_, fun hfs h => ?_, fun hfs h => ?_, ?_, ?_, ?_⟩
  · simp [get_crtime, get_file_system, h]
  · simp [get_crtime, hfs, get_ntfs_crtime, h]
  · simp [get_crtime, hfs, get_vfat_crtime, h]
  · simp [dfCmd, getfattrCmd]
  · simp
  · simp

/-- C7 witness: a failing `df` surfaces through `get_crtime` as the
classification error value. -/
theorem propagation_spec_witness :
    get_crtime wStDfFail (.str "g") = .error (.calledProcessError (dfCmd "g") 1) := by
  exact (propagation_spec wStDfFail "g" 1 1).1 rfl

/-- C8: classification and extraction are deterministic functions of the
system state they read: two calls under the same mount table, file
metadata and attribute bytes return the same results, whatever else (the
`env` component) changed between the calls. -/
theorem determinism_spec (st1 st2 : SystemState) (path : PyArg)
    (h1 : st1.dfResult = st2.dfResult)
    (h2 : st1.getfattrResult = st2.getfattrResult)
    (h3 : st1.statResult = st2.statResult) :
    get_file_system st1 path = get_file_system st2 path ∧
    get_crtime st1 path = get_crtime st2 path := by
  have hfs := get_file_system_df_only st2 st1 path h1
  have hn := get_ntfs_xattr_only st2 st1 path h2
  have hv := get_vfat_stat_only st2 st1 path h3
  exact ⟨hfs, by simp only [get_crtime, hfs, hn, hv]⟩

/-- C8 witness: the results agree across a change of ambient state. -/
theorem determinism_spec_witness :
    get_file_system wStExt4 (.str "f") = get_file_system wStExt4env (.str "f") ∧
    get_crtime wStExt4 (.str "f") = get_crtime wStExt4env (.str "f") := by
  exact determinism_spec wStExt4 wStExt4env (.str "f") rfl rfl rfl

/-- C9: the interactive caller tests the result with Python truthiness
(`if not crtime`), so a successfully extracted instant equal to 0 — a file
created exactly at the Unix epoch — is reported as an unsupported
filesystem via `RuntimeError` instead of being printed. -/
theorem epoch_truthiness_spec (st : SystemState) (p : String)
    (h : get_crtime st (.str p) = .ok (some 0)) :
    mainAction st p = .runtimeErr "Unsupported filesystem" := by
  simp [mainAction, h]

/-- C9 witness: a `vfat` file with `st_ctime = 0` triggers the
`RuntimeError`. -/
theorem epoch_truthiness_spec_witness :
    mainAction wStVfat0 "f" = .runtimeErr "Unsupported filesystem" := by
  exact epoch_truthiness_spec wStVfat0 "f" (by rfl)

/-- Second-element lookup implies membership. -/
theorem mem_of_second {α : Type} (l : List α) (a : α) (h : l[1]? = some a) : a ∈ l := by
  match l with
  | [] => simp at h
  | [x] => simp at h
  | x :: y :: t =>
    simp at h
    subst h
    exact List.mem_cons_of_mem x (List.mem_cons_self y t)

/-- C10: `get_file_system` raises `AssertionError` (not a classification
error) on any non-string argument; when the argument is a string and it
returns a type string, that string is the second whitespace-separated
field of the last line of the `df` output, hence never empty. -/
theorem classify_string_precondition_spec (st : SystemState) (p fs : String) :
    get_file_system st .nonStr = .error (.assertionError "Bad object type given for path") ∧
    (get_file_system st (.str p) = .ok fs →
      fs ≠ "" ∧ ∃ out line, st.dfResult p = .ok out ∧
        (pySplitlines out).getLast? = some line ∧ (pySplitWs line)[1]? = some fs) := by
  refine ⟨rfl, fun h => ?_⟩
  cases hdf : st.dfResult p with
  | error rc => simp [get_file_system, hdf] at h
  | ok out =>
    cases hl : (pySplitlines out).getLast? with
    | none => simp [get_file_system, hdf, hl] at h
    | some line =>
      cases hg : (pySplitWs line)[1]? with
      | none => simp [get_file_system, hdf, hl, hg] at h
      | some fs2 =>
        simp only [get_file_system, hdf, hl, hg, Except.ok.injEq] at h
        subst h
        refine ⟨?_, out, line, rfl, hl, hg⟩
        exact pySplitWs_ne_empty line fs2 (mem_of_second (pySplitWs line) fs2 hg)

/-- C10 witness: the assertion error on a non-string argument, and a
nonempty classified type string. -/
theorem classify_string_precondition_spec_witness :
    get_file_system wStExt4 .nonStr = .error (.assertionError "Bad object type given for path") ∧
    ("ext4" : String) ≠ "" := by
  have h := classify_string_precondition_spec wStExt4 "f" "ext4"
  exact ⟨h.1, (h.2 (by rfl)).1⟩
